import Mathlib

/-!
Verification of the POSTY mail-management server against its specification.

The development shallowly embeds the parts of the TypeScript source that the
checked properties concern:

* the filename-based fallback classifier and document analyzer
  (server/email-providers.ts),
* the user-scoped MailItem storage layer (DatabaseStorage),
* the OAuth CSRF state map and user-id generation (server/auth.ts),
* the letter e-mail notification (server/email-service.ts).

Conventions: JavaScript strings become String; machine time is modelled at
day granularity as Nat (days since epoch) where only calendar dates matter,
and as Nat milliseconds for the OAuth timestamp map; values that can be
undefined become Option; code that can throw is embedded as Except with the
surrounding try/catch made explicit.
-/

set_option maxRecDepth 4000

namespace Posty

/-- Models the semantics of the JavaScript test p is a prefix of s on
character lists (helper for substring containment). -/
def charsIsPre : List Char → List Char → Bool
  | [], _ => true
  | _ :: _, [] => false
  | p :: ps, c :: cs => p == c && charsIsPre ps cs

/-- Models s.includes(pat) on character lists: pat occurs as a contiguous
substring of s. -/
def charsContains (pat : List Char) : List Char → Bool
  | [] => charsIsPre pat []
  | c :: cs => charsIsPre pat (c :: cs) || charsContains pat cs

/-- Models the JavaScript expression s.includes(pat). -/
def includesSub (s pat : String) : Bool :=
  charsContains pat.data s.data

/-- Models s.toLowerCase() (ASCII case folding, which is all the source's
keyword matching relies on). -/
def strToLower (s : String) : String :=
  ⟨s.data.map Char.toLower⟩

/-- Models s.replace(pat, repl) for a plain (non-regex) pattern, which in
JavaScript replaces only the first occurrence. -/
def replaceFirstChars (pat repl : List Char) : List Char → List Char
  | [] => []
  | c :: cs =>
    if charsIsPre pat (c :: cs) then repl ++ (c :: cs).drop pat.length
    else c :: replaceFirstChars pat repl cs

/-- String-level wrapper for the first-occurrence replace of JavaScript. -/
def jsReplaceFirst (s pat repl : String) : String :=
  ⟨replaceFirstChars pat.data repl.data s.data⟩

/-- Models fileName.replace of the trailing-extension regex in
generateEnhancedFallback: removes a final dot followed by one or more
characters none of which is a dot or a slash; otherwise leaves the string
unchanged. -/
def stripExt (s : String) : String :=
  let r := s.data.reverse
  let tail := r.takeWhile (fun c => c != '.' && c != '/')
  match r.drop tail.length with
  | '.' :: rest => if tail.isEmpty then s else ⟨rest.reverse⟩
  | _ => s

/-- The closed category enumeration from shared/schema.ts. -/
def categories : List String :=
  ["bill", "appointment", "personal", "promotional", "government", "insurance", "nhs"]

/-- Embeds validateCategory from server/email-providers.ts: returns the given
category when it is in the closed enumeration, and the string personal
otherwise. -/
def validateCategory (category : String) : String :=
  if categories.contains category then category else "personal"

/-- The analyzer output record (interface AIAnalysisResult). Reminder dates
are modelled as day numbers. -/
structure AIAnalysisResult where
  title : String
  summary : String
  category : String
  categoryList : List String
  customCategories : List String
  reminderDate : Option Nat
  extractedText : String
deriving DecidableEq, Repr

/-- Models the check error instanceof Error with a message containing quota
or 429, applied to the caught value of analyzeDocument. The argument is some
msg when the thrown value was an Error with that message, none otherwise. -/
def isQuotaError : Option String → Bool
  | some msg => includesSub msg "quota" || includesSub msg "429"
  | none => false

/-- The explanatory extracted-text placeholder that generateEnhancedFallback
synthesizes; it interpolates the filename and the derived category. -/
def fallbackExtractedText (fileName category : String) : String :=
  "Filename-based analysis for: " ++ fileName ++
  "\n\nThis document could not be processed with OCR due to service limitations. The content analysis is based on the filename pattern.\n\nFor complete text extraction, please ensure:\n- Document is a clear image (JPG, PNG)\n- Text is readable and well-lit\n- AI service is available\n\nDocument type: " ++
  category ++ "\nExpected content based on filename patterns."

/-- Embeds generateEnhancedFallback from server/email-providers.ts. The first
component of the tuple is the category, then the title, the summary before
the degraded-mode annotation, and the reminder date. The parameter today is
the current date in days; the source computes the reminder as the current
date advanced by fourteen days. -/
def generateEnhancedFallback (fileName : String) (error : Option String)
    (today : Nat) : AIAnalysisResult :=
  let lowerFileName := strToLower fileName
  let base := stripExt fileName
  let c : String × String × String × Option Nat :=
    if includesSub lowerFileName "council" || includesSub lowerFileName "tax" ||
       includesSub lowerFileName "bill" || includesSub lowerFileName "invoice" then
      ("bill", "Bill/Tax Document - " ++ base,
       "Billing or tax document. Review payment details, due dates, and account information. Set reminder for payment if needed.",
       some (today + 14))
    else if includesSub lowerFileName "appointment" || includesSub lowerFileName "doctor" ||
            includesSub lowerFileName "medical" || includesSub lowerFileName "clinic" then
      ("appointment", "Medical Appointment - " ++ base,
       "Medical appointment or healthcare document. Verify appointment details, time, and location. Prepare required documents or follow pre-appointment instructions.",
       none)
    else if includesSub lowerFileName "bank" || includesSub lowerFileName "statement" ||
            includesSub lowerFileName "finance" then
      ("bill", "Financial Document - " ++ base,
       "Financial statement or banking document. Review transactions, account balance, and any important notices or changes.",
       none)
    else if includesSub lowerFileName "insurance" || includesSub lowerFileName "policy" ||
            includesSub lowerFileName "claim" then
      ("insurance", "Insurance Document - " ++ base,
       "Insurance policy, claim, or coverage document. Review policy details, coverage limits, renewal dates, and any required actions.",
       none)
    else if includesSub lowerFileName "nhs" || includesSub lowerFileName "health" then
      ("nhs", "NHS/Health Document - " ++ base,
       "NHS or health service document. Review appointment details, treatment information, test results, or health records.",
       none)
    else if includesSub lowerFileName "gov" || includesSub lowerFileName "hmrc" ||
            includesSub lowerFileName "dvla" || includesSub lowerFileName "government" then
      ("government", "Government Document - " ++ base,
       "Official government correspondence or document. Review requirements, deadlines, and respond by specified dates if action is required.",
       none)
    else if includesSub lowerFileName "ticket" || includesSub lowerFileName "travel" ||
            includesSub lowerFileName "train" || includesSub lowerFileName "flight" then
      ("personal", "Travel Document - " ++ base,
       "Travel ticket or booking confirmation. Verify travel details, departure times, seat assignments, and any special requirements.",
       none)
    else
      ("personal", "Document - " ++ base,
       "Document uploaded and categorized based on filename. AI analysis will provide detailed content extraction once service is available.",
       none)
  let annotated :=
    if isQuotaError error then
      c.2.2.1 ++ " (AI analysis temporarily unavailable due to quota limits)"
    else
      c.2.2.1 ++ " (Detailed AI analysis failed - document processed based on filename)"
  { title := c.2.1
    summary := annotated
    category := c.1
    categoryList := [c.1]
    customCategories := []
    reminderDate := c.2.2.2
    extractedText := fallbackExtractedText fileName c.1 }

example : (generateEnhancedFallback "council_tax_bill_2024.pdf" none 10).category = "bill" := by
  decide

example : (generateEnhancedFallback "random_xyz.png" none 10).reminderDate = none := by
  decide

example : stripExt "file.tar.gz" = "file.tar" := by decide

/-- The fields of the JSON object that the classification call is asked to
produce; each may be absent or of an unusable shape, hence Option. -/
structure RawAnalysis where
  title : Option String
  summary : Option String
  category : Option String
  reminderDate : Option Nat
deriving DecidableEq, Repr

/-- One behavior of the external OCR and classification calls inside
analyzeDocument. The three success constructors name the three return sites
of the try block (PDF converted and OCRed, PDF conversion failed but the
filename-only classification call succeeded, image OCRed); failure models any
step of the try block throwing, with the message available when the thrown
value was an Error. -/
inductive AIOutcome where
  | pdfOcrSuccess (raw : RawAnalysis) (extractedText : String)
  | pdfFilenameSuccess (raw : RawAnalysis)
  | imageSuccess (raw : RawAnalysis) (extractedText : String)
  | failure (errorMessage : Option String)
deriving DecidableEq, Repr

/-- Applies validateCategory to a possibly-absent raw category, as the source
does when the parsed JSON lacks the field (an absent value is not in the
enumeration, so it validates to personal). -/
def validateCategoryOpt : Option String → String
  | some c => validateCategory c
  | none => "personal"

/-- The placeholder extracted text synthesized on the PDF-conversion-failure
path of analyzeDocument. -/
def pdfFailedExtractedText (fileName : String) : String :=
  "PDF Processing Failed - " ++ fileName ++
  "\n\nThis PDF could not be converted to image for OCR processing. Possible reasons:\n- PDF format not compatible with conversion library\n- File corrupted or password protected\n- Insufficient system resources\n\nTry converting manually to image format (JPG/PNG) for full OCR processing.\n\nAnalysis based on filename patterns."

/-- Embeds the try block of analyzeDocument from server/email-providers.ts:
each external-call behavior either produces the result built at the matching
return site (missing JSON fields replaced by that site's defaults) or throws,
surfaced here as the error of the Except. -/
def analyzeDocumentTry (outcome : AIOutcome) (fileName : String) :
    Except (Option String) AIAnalysisResult :=
  match outcome with
  | .pdfOcrSuccess raw extractedText =>
    .ok { title := raw.title.getD ("PDF Document - " ++ fileName)
          summary := raw.summary.getD
            "PDF document processed successfully via image conversion and OCR."
          category := validateCategoryOpt raw.category
          categoryList := [validateCategoryOpt raw.category]
          customCategories := []
          reminderDate := raw.reminderDate
          extractedText := extractedText }
  | .pdfFilenameSuccess raw =>
    .ok { title := raw.title.getD ("PDF - " ++ fileName)
          summary := raw.summary.getD "PDF document analyzed based on filename."
          category := validateCategoryOpt raw.category
          categoryList := [validateCategoryOpt raw.category]
          customCategories := []
          reminderDate := raw.reminderDate
          extractedText := pdfFailedExtractedText fileName }
  | .imageSuccess raw extractedText =>
    .ok { title := raw.title.getD ("Document - " ++ fileName)
          summary := raw.summary.getD "Document processed successfully."
          category := validateCategoryOpt raw.category
          categoryList := [validateCategoryOpt raw.category]
          customCategories := []
          reminderDate := raw.reminderDate
          extractedText := extractedText }
  | .failure msg => .error msg

/-- Embeds analyzeDocument from server/email-providers.ts: the try block with
its catch handler, which routes every thrown error to the filename-based
fallback classifier instead of rethrowing. -/
def analyzeDocument (outcome : AIOutcome) (fileName : String) (today : Nat) :
    AIAnalysisResult :=
  match analyzeDocumentTry outcome fileName with
  | .ok r => r
  | .error e => generateEnhancedFallback fileName e today

/-- A persisted mail_items row from shared/schema.ts. The upload timestamp
and the reminder date are modelled as day numbers; extracted_text is a
nullable column. -/
structure MailItem where
  id : Nat
  userId : String
  title : String
  summary : String
  category : String
  reminderDate : Option Nat
  imageUrl : String
  fileName : String
  extractedText : Option String
  uploadDate : Nat
deriving DecidableEq, Repr

/-- Insertion step of the order-by upload_date descending of the storage
queries. -/
def insertByDateDesc (x : MailItem) : List MailItem → List MailItem
  | [] => [x]
  | y :: ys =>
    if y.uploadDate ≤ x.uploadDate then x :: y :: ys else y :: insertByDateDesc x ys

/-- Models orderBy(desc(mailItems.uploadDate)) of the storage queries. -/
def orderByUploadDateDesc : List MailItem → List MailItem
  | [] => []
  | x :: xs => insertByDateDesc x (orderByUploadDateDesc xs)

/-- Case-insensitive substring match, the semantics of the SQL ilike with the
pattern wrapped in percent signs. -/
def ilikeContains (field pat : String) : Bool :=
  includesSub (strToLower field) (strToLower pat)

/-- Embeds DatabaseStorage.getAllMailItems: rows whose user_id equals the
given user id, newest first. The database is modelled as the list of its
mail_items rows. -/
def getAllMailItems (db : List MailItem) (userId : String) : List MailItem :=
  orderByUploadDateDesc (db.filter (fun r => r.userId == userId))

/-- Embeds DatabaseStorage.getMailItem: the first row matching both the id
and the user id, if any. -/
def getMailItem (db : List MailItem) (id : Nat) (userId : String) : Option MailItem :=
  (db.filter (fun r => r.id == id && r.userId == userId)).head?

/-- A Partial of the insertable mail-item columns, as accepted by
DatabaseStorage.updateMailItem (the id and upload_date columns are omitted
from the insert schema). -/
structure MailItemUpdates where
  userId : Option String := none
  title : Option String := none
  summary : Option String := none
  category : Option String := none
  reminderDate : Option (Option Nat) := none
  imageUrl : Option String := none
  fileName : Option String := none
  extractedText : Option (Option String) := none
deriving DecidableEq, Repr

/-- The effect of the drizzle set clause: present fields overwrite, absent
fields keep the stored value. -/
def applyUpdates (u : MailItemUpdates) (r : MailItem) : MailItem :=
  { r with
    userId := u.userId.getD r.userId
    title := u.title.getD r.title
    summary := u.summary.getD r.summary
    category := u.category.getD r.category
    reminderDate := u.reminderDate.getD r.reminderDate
    imageUrl := u.imageUrl.getD r.imageUrl
    fileName := u.fileName.getD r.fileName
    extractedText := u.extractedText.getD r.extractedText }

/-- Embeds DatabaseStorage.updateMailItem: rows matching both the id and the
user id receive the update; the first updated row is returned alongside the
new table state (undefined when nothing matched). -/
def updateMailItem (db : List MailItem) (id : Nat) (userId : String)
    (updates : MailItemUpdates) : List MailItem × Option MailItem :=
  let hits := fun (r : MailItem) => r.id == id && r.userId == userId
  (db.map (fun r => if hits r then applyUpdates updates r else r),
   ((db.filter hits).map (applyUpdates updates)).head?)

/-- Embeds DatabaseStorage.deleteMailItem: removes rows matching both the id
and the user id, reporting whether the row count was positive. -/
def deleteMailItem (db : List MailItem) (id : Nat) (userId : String) :
    List MailItem × Bool :=
  (db.filter (fun r => !(r.id == id && r.userId == userId)),
   db.any (fun r => r.id == id && r.userId == userId))

/-- Embeds DatabaseStorage.searchMailItems: user-scoped case-insensitive
substring search across title, summary, category and extracted text, newest
first. A null extracted_text column never matches (SQL ilike on null). -/
def searchMailItems (db : List MailItem) (query : String) (userId : String) :
    List MailItem :=
  orderByUploadDateDesc (db.filter (fun r =>
    r.userId == userId &&
    (ilikeContains r.title query || ilikeContains r.summary query ||
     ilikeContains r.category query ||
     (match r.extractedText with
      | some t => ilikeContains t query
      | none => false))))

/-- Embeds DatabaseStorage.getMailItemsByCategory: user-scoped equality
filter on the category column, newest first. -/
def getMailItemsByCategory (db : List MailItem) (category : String)
    (userId : String) : List MailItem :=
  orderByUploadDateDesc (db.filter (fun r =>
    r.category == category && r.userId == userId))

/-- The in-process Map of OAuth CSRF state tokens, modelled as an association
list from state token to its millisecond timestamp (insertion order
preserved, as for a JavaScript Map). -/
abbrev OAuthStates := List (String × Nat)

/-- Models Map.set: overwrite the entry of an existing key in place, append
a fresh key at the end. -/
def mapSet : OAuthStates → String → Nat → OAuthStates
  | [], k, v => [(k, v)]
  | (k', v') :: rest, k, v =>
    if k' == k then (k, v) :: rest else (k', v') :: mapSet rest k v

/-- Models Map.get: the value stored at the first occurrence of the key. -/
def mapGet : OAuthStates → String → Option Nat
  | [], _ => none
  | (k', v') :: rest, k => if k' == k then some v' else mapGet rest k

/-- Models Map.delete (the deleted-or-not result is unused by the source). -/
def mapDelete (m : OAuthStates) (k : String) : OAuthStates :=
  m.filter (fun e => e.1 != k)

/-- Embeds generateOAuthState from server/auth.ts. The freshly generated
random token and the current time are parameters; the function records the
token, then sweeps every entry strictly older than ten minutes. The source
comparison timestamp is less than now minus ten minutes, written here
without natural-number truncation as timestamp plus ten minutes less than
now. -/
def generateOAuthState (states : OAuthStates) (state : String) (now : Nat) :
    String × OAuthStates :=
  let states1 := mapSet states state now
  let swept := states1.filter (fun e => !(decide (e.2 + 10 * 60 * 1000 < now)))
  (state, swept)

/-- Embeds verifyOAuthState from server/auth.ts: an unknown token fails; a
token older than five minutes is deleted and fails; a live token is deleted
and succeeds. -/
def verifyOAuthState (states : OAuthStates) (state : String) (now : Nat) :
    Bool × OAuthStates :=
  match mapGet states state with
  | none => (false, states)
  | some ts =>
    if ts + 5 * 60 * 1000 < now then (false, mapDelete states state)
    else (true, mapDelete states state)

/-- Models the JavaScript expression a or-else b on a possibly-absent string,
where the empty string is falsy. -/
def jsOrStr (a : Option String) (b : String) : String :=
  match a with
  | some s => if s == "" then b else s
  | none => b

/-- Embeds generateUserId from server/auth.ts. The parameter fresh stands for
the timestamp-and-random suffix of the last branch. Only the first at-sign
and the first dot of the email are rewritten to underscores. -/
def generateUserId (provider : String) (providerId : Option String)
    (email : Option String) (fresh : String) : String :=
  if provider == "email" && jsOrStr email "" != "" then
    "email_" ++ jsReplaceFirst (jsReplaceFirst (jsOrStr email "") "@" "_") "." "_"
  else if jsOrStr providerId "" != "" then
    provider ++ "_" ++ jsOrStr providerId ""
  else
    provider ++ "_" ++ fresh

/-- A per-user SMTP configuration as read by getEmailConfig in
server/email-service.ts; only the fields the notification logic inspects are
modelled (host, port and secure do not influence any checked property). -/
structure UserEmailConfig where
  user : String
  pass : String
  fromName : Option String
  fromEmail : Option String
deriving DecidableEq, Repr

/-- The slice of the User row that sendLetterNotification reads. -/
structure EmailUser where
  email : Option String
  firstName : Option String
  emailConfig : Option UserEmailConfig
deriving DecidableEq, Repr

/-- The environment of sendLetterNotification: the SMTP credential
environment variables, which files exist on disk, and whether the SMTP send
succeeds. -/
structure EmailEnv where
  smtpUser : Option String
  smtpPass : Option String
  fileExists : String → Bool
  smtpSendOk : Bool

/-- The failures sendLetterNotification can run into internally. -/
inductive EmailError where
  | noCredentials
  | fileNotFound (fileName : String)
  | smtpFailure
deriving DecidableEq, Repr

/-- The letter data passed from the upload endpoint to the notifier. -/
structure LetterData where
  id : Nat
  title : String
  fileName : String
  imageUrl : String
  uploadDate : Nat
  summary : Option String
  extractedText : Option String
deriving DecidableEq, Repr

/-- Normal completions of the notification body: either the mail was sent or
the user had no email address and the body returned early. -/
inductive NotifySuccess where
  | sentEmail
  | skippedNoEmail
deriving DecidableEq, Repr

/-- What sendLetterNotification reports to nobody but the log: a sent mail, a
skipped user, or a caught and logged failure. All three are normal returns. -/
inductive NotifyOutcome where
  | sent
  | skippedNoEmail
  | failedLogged (e : EmailError)
deriving DecidableEq, Repr

/-- The SMTP auth pair chosen by getEmailConfig: the user's own configuration
when present, else the environment variables with empty-string defaults. -/
def emailAuth (env : EmailEnv) (user : EmailUser) : String × String :=
  match user.emailConfig with
  | some c => (c.user, c.pass)
  | none => (jsOrStr env.smtpUser "", jsOrStr env.smtpPass "")

/-- Models the leading-slash strip applied to the image url before the
attachment path is built. -/
def stripLeadingSlash (s : String) : String :=
  match s.data with
  | '/' :: rest => ⟨rest⟩
  | _ => s

/-- Embeds the try block of sendLetterNotification from
server/email-service.ts: early return for a user without an email address;
createTransporter throws when either SMTP credential is falsy; a missing
attachment file throws; the SMTP send itself may throw. -/
def sendLetterNotificationTry (env : EmailEnv) (user : EmailUser)
    (letter : LetterData) : Except EmailError NotifySuccess :=
  if jsOrStr user.email "" == "" then .ok .skippedNoEmail
  else
    let auth := emailAuth env user
    if auth.1 == "" || auth.2 == "" then .error .noCredentials
    else if !env.fileExists (stripLeadingSlash letter.imageUrl) then
      .error (.fileNotFound letter.fileName)
    else if env.smtpSendOk then .ok .sentEmail
    else .error .smtpFailure

/-- Embeds sendLetterNotification: the try block wrapped in the catch handler
that logs every failure and returns normally instead of rethrowing. -/
def sendLetterNotification (env : EmailEnv) (user : EmailUser)
    (letter : LetterData) : NotifyOutcome :=
  match sendLetterNotificationTry env user letter with
  | .ok .sentEmail => .sent
  | .ok .skippedNoEmail => .skippedNoEmail
  | .error e => .failedLogged e

/-- The serial primary key assigned by the database on insert. -/
def nextId (db : List MailItem) : Nat :=
  db.foldl (fun m r => max m r.id) 0 + 1

/-- Embeds DatabaseStorage.createMailItem: insert the row and return it. -/
def createMailItem (db : List MailItem) (item : MailItem) :
    List MailItem × MailItem :=
  (db ++ [item], item)

/-- Outcome of the upload endpoint after the file was accepted: the new table
state, the row sent back in the HTTP response, and what became of the
notification e-mail. -/
structure UploadResult where
  db : List MailItem
  response : MailItem
  notify : NotifyOutcome

/-- Embeds the mail-items POST route of server/auth.ts from the point where
the uploaded file is stored: analyze the document, persist the resulting row
for the authenticated user, then attempt the notification e-mail inside its
own try/catch, which cannot influence the stored row or the response. -/
def uploadMailItem (db : List MailItem) (userId : String) (outcome : AIOutcome)
    (originalName storedName : String) (today : Nat) (env : EmailEnv)
    (user : EmailUser) : UploadResult :=
  let analysis := analyzeDocument outcome originalName today
  let item : MailItem :=
    { id := nextId db
      userId := userId
      title := analysis.title
      summary := analysis.summary
      category := analysis.category
      reminderDate := analysis.reminderDate
      imageUrl := "/uploads/" ++ storedName
      fileName := originalName
      extractedText := some analysis.extractedText
      uploadDate := today }
  let inserted := createMailItem db item
  let letter : LetterData :=
    { id := inserted.2.id
      title := inserted.2.title
      fileName := inserted.2.fileName
      imageUrl := inserted.2.imageUrl
      uploadDate := inserted.2.uploadDate
      summary := some inserted.2.summary
      extractedText := inserted.2.extractedText }
  { db := inserted.1
    response := inserted.2
    notify := sendLetterNotification env user letter }

/-- The first keyword group of the fallback classifier chain. -/
def kwBill (l : String) : Bool :=
  includesSub l "council" || includesSub l "tax" ||
  includesSub l "bill" || includesSub l "invoice"

/-- The second keyword group (medical appointments). -/
def kwAppt (l : String) : Bool :=
  includesSub l "appointment" || includesSub l "doctor" ||
  includesSub l "medical" || includesSub l "clinic"

/-- The third keyword group (financial documents). -/
def kwBank (l : String) : Bool :=
  includesSub l "bank" || includesSub l "statement" || includesSub l "finance"

/-- The fourth keyword group (insurance). -/
def kwInsurance (l : String) : Bool :=
  includesSub l "insurance" || includesSub l "policy" || includesSub l "claim"

/-- The fifth keyword group (NHS and health). -/
def kwNhs (l : String) : Bool :=
  includesSub l "nhs" || includesSub l "health"

/-- The sixth keyword group (government). -/
def kwGov (l : String) : Bool :=
  includesSub l "gov" || includesSub l "hmrc" ||
  includesSub l "dvla" || includesSub l "government"

/-- The seventh keyword group (travel). -/
def kwTravel (l : String) : Bool :=
  includesSub l "ticket" || includesSub l "travel" ||
  includesSub l "train" || includesSub l "flight"

/-- All keywords the fallback classifier recognizes, in chain order. -/
def fallbackKeywords : List String :=
  ["council", "tax", "bill", "invoice",
   "appointment", "doctor", "medical", "clinic",
   "bank", "statement", "finance",
   "insurance", "policy", "claim",
   "nhs", "health",
   "gov", "hmrc", "dvla", "government",
   "ticket", "travel", "train", "flight"]

/-- Example row used to instantiate the isolation theorem. -/
def exItemA : MailItem :=
  { id := 1, userId := "u1", title := "Council Tax", summary := "s1",
    category := "bill", reminderDate := none, imageUrl := "/uploads/a.pdf",
    fileName := "a.pdf", extractedText := some "council tax", uploadDate := 5 }

/-- A second example row owned by a different user. -/
def exItemB : MailItem :=
  { id := 2, userId := "u2", title := "Letter", summary := "s2",
    category := "personal", reminderDate := none, imageUrl := "/uploads/b.pdf",
    fileName := "b.pdf", extractedText := none, uploadDate := 6 }

/-- Example table with rows of two distinct users. -/
def exDb : List MailItem := [exItemA, exItemB]

/-- Example e-mail environment with credentials present, the attachment file
missing on disk, and a working SMTP connection. -/
def exEnvNoFile : EmailEnv :=
  { smtpUser := some "mailer", smtpPass := some "secret",
    fileExists := fun _ => false, smtpSendOk := true }

/-- A second example environment, with credentials absent. -/
def exEnvNoCreds : EmailEnv :=
  { smtpUser := none, smtpPass := none,
    fileExists := fun _ => true, smtpSendOk := true }

/-- Example user for the notification witness. -/
def exUser : EmailUser :=
  { email := some "user@example.com", firstName := some "Ann", emailConfig := none }

/-- Example letter for the notification witness. -/
def exLetter : LetterData :=
  { id := 1, title := "Council Tax", fileName := "a.pdf",
    imageUrl := "/uploads/a.pdf", uploadDate := 5,
    summary := some "s1", extractedText := some "council tax" }

theorem mem_insertByDateDesc {a x : MailItem} {l : List MailItem} :
    a ∈ insertByDateDesc x l ↔ a = x ∨ a ∈ l := by
  induction l with
  | nil => simp [insertByDateDesc]
  | cons y ys ih =>
    simp only [insertByDateDesc]
    split
    · simp
    · simp [ih]
      tauto

theorem mem_orderByUploadDateDesc {a : MailItem} {l : List MailItem} :
    a ∈ orderByUploadDateDesc l ↔ a ∈ l := by
  induction l with
  | nil => simp [orderByUploadDateDesc]
  | cons x xs ih => simp [orderByUploadDateDesc, mem_insertByDateDesc, ih]

theorem mem_of_head_opt {α : Type _} {l : List α} {a : α}
    (h : l.head? = some a) : a ∈ l := by
  cases l with
  | nil => simp at h
  | cons b t =>
    simp only [List.head?_cons, Option.some.injEq] at h
    exact h ▸ List.mem_cons_self b t

/-- C1: every MailItem query path of the storage layer is restricted to the
requesting user: list, get-by-id and the search and category filters only
return rows whose userId equals the requesting user's id; update and delete
leave every row of another user untouched, and an updated row returned to
the caller is the update applied to a row that belonged to the requesting
user. -/
theorem mailItem_user_isolation (db : List MailItem) (u : String) (id : Nat)
    (q c : String) (upd : MailItemUpdates) :
    (∀ x, x ∈ getAllMailItems db u → x.userId = u) ∧
    (∀ x, getMailItem db id u = some x → x.userId = u) ∧
    (∀ x, x ∈ searchMailItems db q u → x.userId = u) ∧
    (∀ x, x ∈ getMailItemsByCategory db c u → x.userId = u) ∧
    (∀ x, x ∈ db → x.userId ≠ u → x ∈ (updateMailItem db id u upd).1) ∧
    (∀ y, (updateMailItem db id u upd).2 = some y →
      ∃ x, x ∈ db ∧ x.userId = u ∧ x.id = id ∧ y = applyUpdates upd x) ∧
    (∀ x, x ∈ db → x.userId ≠ u → x ∈ (deleteMailItem db id u).1) := by
  refine ⟨?_, ?_, ?_, ?_, ?_, ?_, ?_⟩
  · intro x hx
    rw [getAllMailItems, mem_orderByUploadDateDesc, List.mem_filter] at hx
    simpa using hx.2
  · intro x hx
    have hmem := mem_of_head_opt hx
    rw [List.mem_filter] at hmem
    have := hmem.2
    simp only [Bool.and_eq_true, beq_iff_eq] at this
    exact this.2
  · intro x hx
    rw [searchMailItems, mem_orderByUploadDateDesc, List.mem_filter] at hx
    have := hx.2
    simp only [Bool.and_eq_true, beq_iff_eq] at this
    exact this.1
  · intro x hx
    rw [getMailItemsByCategory, mem_orderByUploadDateDesc, List.mem_filter] at hx
    have := hx.2
    simp only [Bool.and_eq_true, beq_iff_eq] at this
    exact this.2
  · intro x hx hne
    simp only [updateMailItem]
    refine List.mem_map.mpr ⟨x, hx, ?_⟩
    simp [hne]
  · intro y hy
    simp only [updateMailItem] at hy
    cases hf : db.filter (fun r => r.id == id && r.userId == u) with
    | nil => rw [hf] at hy; simp at hy
    | cons x t =>
      rw [hf] at hy
      simp only [List.map_cons, List.head?_cons, Option.some.injEq] at hy
      have hmem : x ∈ db.filter (fun r => r.id == id && r.userId == u) := by
        rw [hf]; exact List.mem_cons_self x t
      rw [List.mem_filter] at hmem
      have hp := hmem.2
      simp only [Bool.and_eq_true, beq_iff_eq] at hp
      exact ⟨x, hmem.1, hp.2, hp.1, hy.symm⟩
  · intro x hx hne
    rw [deleteMailItem]
    simp only [List.mem_filter]
    exact ⟨hx, by simp [hne]⟩

theorem mailItem_user_isolation_witness :
    exItemA.userId = "u1" ∧ exItemB ∈ (deleteMailItem exDb 2 "u1").1 :=
  ⟨(mailItem_user_isolation exDb "u1" 1 "tax" "bill" {}).1 exItemA (by decide),
   (mailItem_user_isolation exDb "u1" 2 "tax" "bill" {}).2.2.2.2.2.2 exItemB
     (by decide) (by decide)⟩

theorem gef_bill_fields (f : String) (e : Option String) (t : Nat)
    (h : kwBill (strToLower f) = true) :
    (generateEnhancedFallback f e t).category = "bill" ∧
    (generateEnhancedFallback f e t).title = "Bill/Tax Document - " ++ stripExt f ∧
    (generateEnhancedFallback f e t).reminderDate = some (t + 14) := by
  unfold kwBill at h
  simp [generateEnhancedFallback, h]

theorem gef_appt_fields (f : String) (e : Option String) (t : Nat)
    (h1 : kwBill (strToLower f) = false) (h2 : kwAppt (strToLower f) = true) :
    (generateEnhancedFallback f e t).category = "appointment" := by
  unfold kwBill at h1
  unfold kwAppt at h2
  simp [generateEnhancedFallback, h1, h2]

theorem gef_bank_fields (f : String) (e : Option String) (t : Nat)
    (h1 : kwBill (strToLower f) = false) (h2 : kwAppt (strToLower f) = false)
    (h3 : kwBank (strToLower f) = true) :
    (generateEnhancedFallback f e t).category = "bill" := by
  unfold kwBill at h1
  unfold kwAppt at h2
  unfold kwBank at h3
  simp [generateEnhancedFallback, h1, h2, h3]

theorem gef_insurance_fields (f : String) (e : Option String) (t : Nat)
    (h1 : kwBill (strToLower f) = false) (h2 : kwAppt (strToLower f) = false)
    (h3 : kwBank (strToLower f) = false) (h4 : kwInsurance (strToLower f) = true) :
    (generateEnhancedFallback f e t).category = "insurance" := by
  unfold kwBill at h1
  unfold kwAppt at h2
  unfold kwBank at h3
  unfold kwInsurance at h4
  simp [generateEnhancedFallback, h1, h2, h3, h4]

theorem gef_nhs_fields (f : String) (e : Option String) (t : Nat)
    (h1 : kwBill (strToLower f) = false) (h2 : kwAppt (strToLower f) = false)
    (h3 : kwBank (strToLower f) = false) (h4 : kwInsurance (strToLower f) = false)
    (h5 : kwNhs (strToLower f) = true) :
    (generateEnhancedFallback f e t).category = "nhs" := by
  unfold kwBill at h1
  unfold kwAppt at h2
  unfold kwBank at h3
  unfold kwInsurance at h4
  unfold kwNhs at h5
  simp [generateEnhancedFallback, h1, h2, h3, h4, h5]

theorem gef_gov_fields (f : String) (e : Option String) (t : Nat)
    (h1 : kwBill (strToLower f) = false) (h2 : kwAppt (strToLower f) = false)
    (h3 : kwBank (strToLower f) = false) (h4 : kwInsurance (strToLower f) = false)
    (h5 : kwNhs (strToLower f) = false) (h6 : kwGov (strToLower f) = true) :
    (generateEnhancedFallback f e t).category = "government" := by
  unfold kwBill at h1
  unfold kwAppt at h2
  unfold kwBank at h3
  unfold kwInsurance at h4
  unfold kwNhs at h5
  unfold kwGov at h6
  simp [generateEnhancedFallback, h1, h2, h3, h4, h5, h6]

theorem gef_travel_fields (f : String) (e : Option String) (t : Nat)
    (h1 : kwBill (strToLower f) = false) (h2 : kwAppt (strToLower f) = false)
    (h3 : kwBank (strToLower f) = false) (h4 : kwInsurance (strToLower f) = false)
    (h5 : kwNhs (strToLower f) = false) (h6 : kwGov (strToLower f) = false)
    (h7 : kwTravel (strToLower f) = true) :
    (generateEnhancedFallback f e t).category = "personal" := by
  unfold kwBill at h1
  unfold kwAppt at h2
  unfold kwBank at h3
  unfold kwInsurance at h4
  unfold kwNhs at h5
  unfold kwGov at h6
  unfold kwTravel at h7
  simp [generateEnhancedFallback, h1, h2, h3, h4, h5, h6, h7]

theorem gef_else_fields (f : String) (e : Option String) (t : Nat)
    (h1 : kwBill (strToLower f) = false) (h2 : kwAppt (strToLower f) = false)
    (h3 : kwBank (strToLower f) = false) (h4 : kwInsurance (strToLower f) = false)
    (h5 : kwNhs (strToLower f) = false) (h6 : kwGov (strToLower f) = false)
    (h7 : kwTravel (strToLower f) = false) :
    (generateEnhancedFallback f e t).category = "personal" ∧
    (generateEnhancedFallback f e t).title = "Document - " ++ stripExt f ∧
    (∃ annot, (generateEnhancedFallback f e t).summary =
      "Document uploaded and categorized based on filename. AI analysis will provide detailed content extraction once service is available." ++ annot) ∧
    (generateEnhancedFallback f e t).reminderDate = none := by
  unfold kwBill at h1
  unfold kwAppt at h2
  unfold kwBank at h3
  unfold kwInsurance at h4
  unfold kwNhs at h5
  unfold kwGov at h6
  unfold kwTravel at h7
  simp only [generateEnhancedFallback, h1, h2, h3, h4, h5, h6, h7]
  refine ⟨rfl, rfl, ?_, rfl⟩
  by_cases hq : isQuotaError e
  · simp only [hq, if_true]
    exact ⟨_, rfl⟩
  · simp only [hq, if_false]
    exact ⟨_, rfl⟩

/-- C3: a filename whose lowercased form contains bill, invoice, council or
tax is classified by the fallback as a bill, its title carries the
Bill/Tax Document prefix, and its reminder date is exactly fourteen days
after the invocation date. -/
theorem fallback_bill_keyword (f : String) (e : Option String) (t : Nat)
    (h : includesSub (strToLower f) "bill" = true ∨
         includesSub (strToLower f) "invoice" = true ∨
         includesSub (strToLower f) "council" = true ∨
         includesSub (strToLower f) "tax" = true) :
    (generateEnhancedFallback f e t).category = "bill" ∧
    (∃ r, (generateEnhancedFallback f e t).title = "Bill/Tax Document - " ++ r) ∧
    (generateEnhancedFallback f e t).reminderDate = some (t + 14) := by
  have hb : kwBill (strToLower f) = true := by
    rcases h with h | h | h | h <;> simp [kwBill, h]
  obtain ⟨h1, h2, h3⟩ := gef_bill_fields f e t hb
  exact ⟨h1, ⟨stripExt f, h2⟩, h3⟩

theorem fallback_bill_keyword_witness :
    (generateEnhancedFallback "council_tax_bill_2024.pdf" none 0).category = "bill" ∧
    (∃ r, (generateEnhancedFallback "council_tax_bill_2024.pdf" none 0).title =
      "Bill/Tax Document - " ++ r) ∧
    (generateEnhancedFallback "council_tax_bill_2024.pdf" none 0).reminderDate =
      some (0 + 14) :=
  fallback_bill_keyword "council_tax_bill_2024.pdf" none 0 (Or.inl (by decide))

/-- C4: a filename whose lowercased form contains none of the recognized
keywords is classified as personal, with the generic title and summary and
no reminder date. -/
theorem fallback_no_keyword (f : String) (e : Option String) (t : Nat)
    (h : ∀ k ∈ fallbackKeywords, includesSub (strToLower f) k = false) :
    (generateEnhancedFallback f e t).category = "personal" ∧
    (generateEnhancedFallback f e t).title = "Document - " ++ stripExt f ∧
    (∃ annot, (generateEnhancedFallback f e t).summary =
      "Document uploaded and categorized based on filename. AI analysis will provide detailed content extraction once service is available." ++ annot) ∧
    (generateEnhancedFallback f e t).reminderDate = none := by
  have hk : ∀ k ∈ fallbackKeywords, includesSub (strToLower f) k = false := h
  refine gef_else_fields f e t ?_ ?_ ?_ ?_ ?_ ?_ ?_
  · simp [kwBill, hk "council" (by decide), hk "tax" (by decide),
      hk "bill" (by decide), hk "invoice" (by decide)]
  · simp [kwAppt, hk "appointment" (by decide), hk "doctor" (by decide),
      hk "medical" (by decide), hk "clinic" (by decide)]
  · simp [kwBank, hk "bank" (by decide), hk "statement" (by decide),
      hk "finance" (by decide)]
  · simp [kwInsurance, hk "insurance" (by decide), hk "policy" (by decide),
      hk "claim" (by decide)]
  · simp [kwNhs, hk "nhs" (by decide), hk "health" (by decide)]
  · simp [kwGov, hk "gov" (by decide), hk "hmrc" (by decide),
      hk "dvla" (by decide), hk "government" (by decide)]
  · simp [kwTravel, hk "ticket" (by decide), hk "travel" (by decide),
      hk "train" (by decide), hk "flight" (by decide)]

theorem fallback_no_keyword_witness :
    (generateEnhancedFallback "random_xyz.png" none 0).category = "personal" ∧
    (generateEnhancedFallback "random_xyz.png" none 0).title =
      "Document - " ++ stripExt "random_xyz.png" ∧
    (∃ annot, (generateEnhancedFallback "random_xyz.png" none 0).summary =
      "Document uploaded and categorized based on filename. AI analysis will provide detailed content extraction once service is available." ++ annot) ∧
    (generateEnhancedFallback "random_xyz.png" none 0).reminderDate = none :=
  fallback_no_keyword "random_xyz.png" none 0 (by decide)

/-- C6: the fallback classifier maps the keyword groups of the lowercased
filename to categories exactly as the chain lists them: the bill group wins
first and adds the title prefix and the fourteen-day reminder; each later
group applies when no earlier group matched. -/
theorem fallback_keyword_mapping (f : String) (e : Option String) (t : Nat) :
    (kwBill (strToLower f) = true →
      (generateEnhancedFallback f e t).category = "bill" ∧
      (∃ r, (generateEnhancedFallback f e t).title = "Bill/Tax Document - " ++ r) ∧
      (generateEnhancedFallback f e t).reminderDate = some (t + 14)) ∧
    (kwBill (strToLower f) = false → kwAppt (strToLower f) = true →
      (generateEnhancedFallback f e t).category = "appointment") ∧
    (kwBill (strToLower f) = false → kwAppt (strToLower f) = false →
      kwBank (strToLower f) = true →
      (generateEnhancedFallback f e t).category = "bill") ∧
    (kwBill (strToLower f) = false → kwAppt (strToLower f) = false →
      kwBank (strToLower f) = false → kwInsurance (strToLower f) = true →
      (generateEnhancedFallback f e t).category = "insurance") ∧
    (kwBill (strToLower f) = false → kwAppt (strToLower f) = false →
      kwBank (strToLower f) = false → kwInsurance (strToLower f) = false →
      kwNhs (strToLower f) = true →
      (generateEnhancedFallback f e t).category = "nhs") ∧
    (kwBill (strToLower f) = false → kwAppt (strToLower f) = false →
      kwBank (strToLower f) = false → kwInsurance (strToLower f) = false →
      kwNhs (strToLower f) = false → kwGov (strToLower f) = true →
      (generateEnhancedFallback f e t).category = "government") ∧
    (kwBill (strToLower f) = false → kwAppt (strToLower f) = false →
      kwBank (strToLower f) = false → kwInsurance (strToLower f) = false →
      kwNhs (strToLower f) = false → kwGov (strToLower f) = false →
      kwTravel (strToLower f) = true →
      (generateEnhancedFallback f e t).category = "personal") := by
  refine ⟨?_, ?_, ?_, ?_, ?_, ?_, ?_⟩
  · intro h
    obtain ⟨h1, h2, h3⟩ := gef_bill_fields f e t h
    exact ⟨h1, ⟨stripExt f, h2⟩, h3⟩
  · exact gef_appt_fields f e t
  · exact gef_bank_fields f e t
  · exact gef_insurance_fields f e t
  · exact gef_nhs_fields f e t
  · exact gef_gov_fields f e t
  · exact gef_travel_fields f e t

theorem fallback_keyword_mapping_witness :
    (generateEnhancedFallback "doctor.pdf" none 0).category = "appointment" :=
  (fallback_keyword_mapping "doctor.pdf" none 0).2.1 (by decide) (by decide)

theorem gef_category_mem (f : String) (e : Option String) (t : Nat) :
    (generateEnhancedFallback f e t).category ∈ categories := by
  by_cases h1 : kwBill (strToLower f) = true
  · simp [categories, gef_bill_fields f e t h1]
  · rw [Bool.not_eq_true] at h1
    by_cases h2 : kwAppt (strToLower f) = true
    · simp [categories, gef_appt_fields f e t h1 h2]
    · rw [Bool.not_eq_true] at h2
      by_cases h3 : kwBank (strToLower f) = true
      · simp [categories, gef_bank_fields f e t h1 h2 h3]
      · rw [Bool.not_eq_true] at h3
        by_cases h4 : kwInsurance (strToLower f) = true
        · simp [categories, gef_insurance_fields f e t h1 h2 h3 h4]
        · rw [Bool.not_eq_true] at h4
          by_cases h5 : kwNhs (strToLower f) = true
          · simp [categories, gef_nhs_fields f e t h1 h2 h3 h4 h5]
          · rw [Bool.not_eq_true] at h5
            by_cases h6 : kwGov (strToLower f) = true
            · simp [categories, gef_gov_fields f e t h1 h2 h3 h4 h5 h6]
            · rw [Bool.not_eq_true] at h6
              by_cases h7 : kwTravel (strToLower f) = true
              · simp [categories, gef_travel_fields f e t h1 h2 h3 h4 h5 h6 h7]
              · rw [Bool.not_eq_true] at h7
                simp [categories, (gef_else_fields f e t h1 h2 h3 h4 h5 h6 h7).1]

/-- C5 counterexample: the extractedText of the fallback result is not one
fixed placeholder string; it differs between two filenames, because the
source interpolates the filename into the placeholder. -/
theorem fallback_extractedText_not_fixed :
    (generateEnhancedFallback "a.txt" none 0).extractedText ≠
    (generateEnhancedFallback "b.txt" none 0).extractedText := by
  decide

/-- C5 amended: the fallback classifier is a total deterministic function of
the filename, the caught error and the invocation date; every invocation
returns a well-formed result with no error state, and its extractedText is
the fixed explanatory template instantiated with the filename and the
derived category. -/
theorem fallback_total_function (f : String) (e : Option String) (t : Nat) :
    (generateEnhancedFallback f e t).extractedText =
      fallbackExtractedText f (generateEnhancedFallback f e t).category ∧
    (generateEnhancedFallback f e t).category ∈ categories ∧
    (generateEnhancedFallback f e t).categoryList =
      [(generateEnhancedFallback f e t).category] ∧
    (generateEnhancedFallback f e t).customCategories = [] :=
  ⟨rfl, gef_category_mem f e t, rfl, rfl⟩

theorem validateCategory_mem (c : String) : validateCategory c ∈ categories := by
  unfold validateCategory
  split
  · next h => exact List.mem_of_elem_eq_true h
  · simp [categories]

theorem validateCategoryOpt_mem (c : Option String) :
    validateCategoryOpt c ∈ categories := by
  cases c with
  | none => simp [validateCategoryOpt, categories]
  | some c => exact validateCategory_mem c

theorem analyzeDocument_category_mem (outcome : AIOutcome) (f : String) (t : Nat) :
    (analyzeDocument outcome f t).category ∈ categories := by
  cases outcome with
  | pdfOcrSuccess raw et =>
    exact validateCategoryOpt_mem raw.category
  | pdfFilenameSuccess raw =>
    exact validateCategoryOpt_mem raw.category
  | imageSuccess raw et =>
    exact validateCategoryOpt_mem raw.category
  | failure msg =>
    exact gef_category_mem f msg t

/-- C7: validateCategory closes the enumeration: a member of the closed
category enumeration passes through unchanged and any other string becomes
personal; consequently the category of every analyzeDocument result, on
every external-call behavior, is a member of the enumeration. -/
theorem validateCategory_closes_enum (c : String) (outcome : AIOutcome)
    (f : String) (t : Nat) :
    (c ∈ categories → validateCategory c = c) ∧
    (c ∉ categories → validateCategory c = "personal") ∧
    (analyzeDocument outcome f t).category ∈ categories := by
  refine ⟨?_, ?_, analyzeDocument_category_mem outcome f t⟩
  · intro h
    simp [validateCategory, h]
  · intro h
    simp [validateCategory, h]

theorem validateCategory_closes_enum_witness :
    validateCategory "bill" = "bill" ∧ validateCategory "nonsense" = "personal" :=
  ⟨(validateCategory_closes_enum "bill" (.failure none) "f" 0).1 (by decide),
   (validateCategory_closes_enum "nonsense" (.failure none) "f" 0).2.1 (by decide)⟩

/-- C2: analyzeDocument never throws: every external-call behavior yields a
well-formed result; every thrown error is routed to the fallback classifier;
and the fallback summary carries the quota annotation exactly when the error
message mentions quota or 429, and the generic degraded-mode annotation
otherwise. -/
theorem analyzeDocument_never_throws (outcome : AIOutcome) (f : String)
    (t : Nat) (e : Option String) :
    ((analyzeDocument outcome f t).category ∈ categories ∧
     (analyzeDocument outcome f t).categoryList =
       [(analyzeDocument outcome f t).category]) ∧
    analyzeDocument (.failure e) f t = generateEnhancedFallback f e t ∧
    (isQuotaError e = true →
      ∃ s, (generateEnhancedFallback f e t).summary =
        s ++ " (AI analysis temporarily unavailable due to quota limits)") ∧
    (isQuotaError e = false →
      ∃ s, (generateEnhancedFallback f e t).summary =
        s ++ " (Detailed AI analysis failed - document processed based on filename)") := by
  refine ⟨⟨analyzeDocument_category_mem outcome f t, ?_⟩, rfl, ?_, ?_⟩
  · cases outcome <;> rfl
  · intro hq
    simp only [generateEnhancedFallback, hq, if_true]
    exact ⟨_, rfl⟩
  · intro hq
    simp only [generateEnhancedFallback, hq, if_false]
    exact ⟨_, rfl⟩

theorem analyzeDocument_never_throws_witness :
    analyzeDocument (.failure (some "quota exceeded")) "x.pdf" 0 =
      generateEnhancedFallback "x.pdf" (some "quota exceeded") 0 ∧
    (∃ s, (generateEnhancedFallback "x.pdf" (some "quota exceeded") 0).summary =
      s ++ " (AI analysis temporarily unavailable due to quota limits)") :=
  ⟨(analyzeDocument_never_throws (.failure (some "quota exceeded")) "x.pdf" 0
      (some "quota exceeded")).2.1,
   (analyzeDocument_never_throws (.failure (some "quota exceeded")) "x.pdf" 0
      (some "quota exceeded")).2.2.1 (by decide)⟩

/-- C8: sendLetterNotification never raises a caller-visible error: every
failure of the notification body, including a missing user e-mail address, a
missing attachment file, absent SMTP credentials and an SMTP send failure,
results in a logged normal return; and the persisted MailItem row and the
upload endpoint's response are identical under any two e-mail environments,
so a notification failure cannot affect them. -/
theorem sendLetterNotification_never_throws (env env2 : EmailEnv)
    (user : EmailUser) (letter : LetterData) (db : List MailItem) (u : String)
    (outcome : AIOutcome) (orig stored : String) (t : Nat) (e : EmailError) :
    (sendLetterNotificationTry env user letter = .error e →
      sendLetterNotification env user letter = .failedLogged e) ∧
    (user.email = none → sendLetterNotification env user letter = .skippedNoEmail) ∧
    (uploadMailItem db u outcome orig stored t env user).db =
      (uploadMailItem db u outcome orig stored t env2 user).db ∧
    (uploadMailItem db u outcome orig stored t env user).response =
      (uploadMailItem db u outcome orig stored t env2 user).response := by
  refine ⟨?_, ?_, rfl, rfl⟩
  · intro h
    simp [sendLetterNotification, h]
  · intro h
    simp [sendLetterNotification, sendLetterNotificationTry, h, jsOrStr]

theorem sendLetterNotification_never_throws_witness :
    sendLetterNotification exEnvNoFile exUser exLetter =
      .failedLogged (.fileNotFound "a.pdf") ∧
    (uploadMailItem exDb "u1" (.failure none) "a.pdf" "file-1.pdf" 7
        exEnvNoFile exUser).db =
      (uploadMailItem exDb "u1" (.failure none) "a.pdf" "file-1.pdf" 7
        exEnvNoCreds exUser).db :=
  ⟨(sendLetterNotification_never_throws exEnvNoFile exEnvNoCreds exUser exLetter
      exDb "u1" (.failure none) "a.pdf" "file-1.pdf" 7
      (.fileNotFound "a.pdf")).1 (by rfl),
   (sendLetterNotification_never_throws exEnvNoFile exEnvNoCreds exUser exLetter
      exDb "u1" (.failure none) "a.pdf" "file-1.pdf" 7
      (.fileNotFound "a.pdf")).2.2.1⟩

theorem mapGet_mapSet (m : OAuthStates) (k : String) (v : Nat) :
    mapGet (mapSet m k v) k = some v := by
  induction m with
  | nil => simp [mapSet, mapGet]
  | cons e rest ih =>
    obtain ⟨k', v'⟩ := e
    by_cases h : k' = k
    · simp [mapSet, h, mapGet]
    · simp [mapSet, h, mapGet, ih]

theorem mapGet_filter (p : String × Nat → Bool) (m : OAuthStates) (k : String)
    (v : Nat) (h : mapGet m k = some v) (hp : p (k, v) = true) :
    mapGet (m.filter p) k = some v := by
  induction m with
  | nil => simp [mapGet] at h
  | cons e rest ih =>
    obtain ⟨k', v'⟩ := e
    by_cases hk : k' = k
    · subst hk
      have hv : v' = v := by simpa [mapGet] using h
      subst hv
      simp [List.filter_cons, hp, mapGet]
    · have h' : mapGet rest k = some v := by simpa [mapGet, hk] using h
      by_cases hq : p (k', v') = true
      · simp only [List.filter_cons, hq, if_true]
        simpa [mapGet, hk] using ih h'
      · rw [Bool.not_eq_true] at hq
        simp [List.filter_cons, hq]
        exact ih h'

theorem mapGet_mapDelete (m : OAuthStates) (k : String) :
    mapGet (mapDelete m k) k = none := by
  induction m with
  | nil => rfl
  | cons e rest ih =>
    obtain ⟨k', v'⟩ := e
    by_cases h : k' = k
    · simpa [mapDelete, List.filter_cons, h] using ih
    · simpa [mapDelete, List.filter_cons, h, mapGet] using ih

/-- C9: the OAuth CSRF state map lifecycle: generating a state records the
fresh token with the current timestamp and sweeps every entry strictly older
than ten minutes; and verification consumes the token, so after a successful
verification an immediate second verification of the same token fails. -/
theorem oauth_state_lifecycle (states : OAuthStates) (s : String)
    (now now2 : Nat) :
    mapGet (generateOAuthState states s now).2 s = some now ∧
    (∀ x ∈ (generateOAuthState states s now).2,
      ¬ (x.2 + 10 * 60 * 1000 < now)) ∧
    ((verifyOAuthState states s now).1 = true →
      (verifyOAuthState (verifyOAuthState states s now).2 s now2).1 = false) := by
  refine ⟨?_, ?_, ?_⟩
  · refine mapGet_filter _ _ _ _ (mapGet_mapSet states s now) ?_
    simp only [Bool.not_eq_true', decide_eq_false_iff_not]
    omega
  · intro x hx
    have hp := (List.mem_filter.mp hx).2
    simp only [Bool.not_eq_true', decide_eq_false_iff_not] at hp
    exact hp
  · intro h
    have h2 : (verifyOAuthState states s now).2 = mapDelete states s := by
      unfold verifyOAuthState at h ⊢
      cases hg : mapGet states s with
      | none => rw [hg] at h; simp at h
      | some ts =>
        by_cases hold : ts + 5 * 60 * 1000 < now <;> simp [hold]
    rw [h2]
    unfold verifyOAuthState
    rw [mapGet_mapDelete]

theorem oauth_state_lifecycle_witness :
    mapGet (generateOAuthState [] "tok" 5).2 "tok" = some 5 ∧
    (verifyOAuthState (verifyOAuthState [("tok", 5)] "tok" 6).2 "tok" 7).1 = false :=
  ⟨(oauth_state_lifecycle [] "tok" 5 7).1,
   (oauth_state_lifecycle [("tok", 5)] "tok" 6 7).2.2 (by decide)⟩

/-- C10: generateUserId is not injective on e-mail addresses: because only
the first at sign and the first dot are replaced by underscores, the two
distinct addresses a.b at x.com and a at b.x.com produce the same user id. -/
theorem generateUserId_not_injective :
    ("a.b@x.com" : String) ≠ "a@b.x.com" ∧
    generateUserId "email" none (some "a.b@x.com") "r" =
      generateUserId "email" none (some "a@b.x.com") "r" ∧
    generateUserId "email" none (some "a.b@x.com") "r" = "email_a_b_x.com" := by
  refine ⟨by decide, by decide, by decide⟩

end Posty
